import Mathlib

/-!
Shallow embedding of `companies_house_mcp.py` (Companies-House MCP server),
centred on the report assembler `generate_company_report` (source lines
171-264) together with the response helpers `_handle_response` (lines 38-55)
and `_safe_request` (lines 57-68).

JSON values (what Python holds after `response.json()`) are modelled by the
inductive type `Json`.  Python runtime faults on ill-typed data
(`AttributeError` from `.get`/`.upper()` on a non-dict/non-string,
`TypeError` from iterating a non-list) are modelled by the `Except String`
monad.  One deliberate simplification: an `"items"` value that is present
but not a JSON array is modelled as a fault at the point the source first
iterates it, whereas Python would fault there only for non-iterables; no
claim distinguishes the two, since upstream `items` is always an array.
-/

/-- JSON values as delivered by the upstream API.  Numbers are modelled as
integers, which covers every numeric field the report logic reads or writes
(`total_count`, list lengths, HTTP status codes). -/
inductive Json where
  | null : Json
  | bool : Bool → Json
  | num : Int → Json
  | str : String → Json
  | arr : List Json → Json
  | obj : List (String × Json) → Json

/-- First binding of a key in an association list.  Python dicts have unique
keys, so first occurrence is the only occurrence on real data. -/
def lookupField : List (String × Json) → String → Option Json
  | [], _ => none
  | (k, v) :: rest, key => if k == key then some v else lookupField rest key

/-- Whether `needle` is a prefix of `hay` (character lists). -/
def charsHavePre : List Char → List Char → Bool
  | [], _ => true
  | _ :: _, [] => false
  | n :: ns, h :: hs => n == h && charsHavePre ns hs

/-- Whether `needle` occurs contiguously anywhere in `hay` (character lists). -/
def charsHaveSub (needle : List Char) : List Char → Bool
  | [] => needle.isEmpty
  | h :: hs => charsHavePre needle (h :: hs) || charsHaveSub needle hs

/-- Python substring test `needle in s` on strings. -/
def strContains (s needle : String) : Bool :=
  charsHaveSub needle.data s.data

/-- Python membership operator `x in y` for a string left operand `x`:
substring test on strings, element test on lists, key test on dicts
(used at source line 185 for `"error" in profile`), `TypeError` otherwise. -/
def pyInOp (x : String) : Json → Except String Bool
  | Json.str s => Except.ok (strContains s x)
  | Json.arr xs =>
      Except.ok (xs.any fun j => match j with | Json.str t => t == x | _ => false)
  | Json.obj fs => Except.ok (lookupField fs x).isSome
  | _ => Except.error "TypeError: membership on non-container"

/-- The test `isinstance(j, dict) and k in j` (source line 185). -/
def hasKey (j : Json) (k : String) : Bool :=
  match j with
  | Json.obj fs => (lookupField fs k).isSome
  | _ => false

/-- Total `d.get(k)` lookup for a value already known to be a dict; yields
`null` (Python `None`) when the key is absent, like `dict.get`'s default. -/
def objGet (j : Json) (k : String) : Json :=
  match j with
  | Json.obj fs => (lookupField fs k).getD Json.null
  | _ => Json.null

/-- Total `d.get(k, d0)` lookup for a value already known to be a dict. -/
def objGetD (j : Json) (k : String) (d0 : Json) : Json :=
  match j with
  | Json.obj fs => (lookupField fs k).getD d0
  | _ => d0

/-- Python `j.get(k, d0)`: `AttributeError` when `j` is not a dict. -/
def pyGetD (j : Json) (k : String) (d0 : Json) : Except String Json :=
  match j with
  | Json.obj fs => Except.ok ((lookupField fs k).getD d0)
  | _ => Except.error "AttributeError: object has no attribute get"

/-- Python `j.get(k)` (default `None`). -/
def pyGet (j : Json) (k : String) : Except String Json :=
  pyGetD j k Json.null

/-- Python `s.upper()` on a string: uppercase character by character (the
inputs here are ASCII names, where Python's and Lean's per-character
uppercase agree). -/
def strUpper (s : String) : String :=
  String.mk (s.data.map Char.toUpper)

/-- Python `j.upper()`: defined on strings only. -/
def pyUpper (j : Json) : Except String String :=
  match j with
  | Json.str s => Except.ok (strUpper s)
  | _ => Except.error "AttributeError: object has no attribute upper"

/-- Iterating a JSON value as a Python list. -/
def pyElems (j : Json) : Except String (List Json) :=
  match j with
  | Json.arr xs => Except.ok xs
  | _ => Except.error "TypeError: object is not a list"

/-- Python `j is None`. -/
def isNull (j : Json) : Bool :=
  match j with
  | Json.null => true
  | _ => false

/-- Python `j == s` against a string literal: true exactly for the equal
string, false for every other value or type (no coercion, no case folding). -/
def pyEqStr (j : Json) (s : String) : Bool :=
  match j with
  | Json.str t => t == s
  | _ => false

/-- Lookup in the `psc_map` (a Python `dict[str, str]`); first match. -/
def mapLookup : List (String × String) → String → Option String
  | [], _ => none
  | (k, v) :: rest, key => if k == key then some v else mapLookup rest key

/-- Python `psc_map.get(dir_name, default)` (source line 235). -/
def mapLookupD (m : List (String × String)) (key d0 : String) : String :=
  (mapLookup m key).getD d0

/-- The extraction `d.get("items", []) if isinstance(d, dict) else []`
(source lines 190, 194, 199), combined with the `for`-loop iteration of the
resulting value. -/
def fetchedItems (j : Json) : Except String (List Json) :=
  match j with
  | Json.obj fs => pyElems ((lookupField fs "items").getD (Json.arr []))
  | _ => Except.ok []

/-- The extraction `charges_data.get("total_count", 0) if
isinstance(charges_data, dict) else 0` (source line 198).  The raw JSON value
is kept: the source never inspects its type before embedding it in the
report. -/
def chargesCount (j : Json) : Json :=
  match j with
  | Json.obj fs => (lookupField fs "total_count").getD (Json.num 0)
  | _ => Json.num 0

/-- The comprehension `[c for c in items if c.get("status") == "outstanding"]`
(source line 199). -/
def activeCharges : List Json → Except String (List Json)
  | [] => Except.ok []
  | c :: rest => do
      let s ← pyGet c "status"
      let tail ← activeCharges rest
      if pyEqStr s "outstanding" then Except.ok (c :: tail)
      else Except.ok tail

/-- Python `any(needle in n for n in natures)` (source lines 209-213):
short-circuits on the first match, so elements after a match are never
touched. -/
def anyHasSub (needle : String) : List Json → Except String Bool
  | [] => Except.ok false
  | n :: ns => do
      let b ← pyInOp needle n
      if b then Except.ok true else anyHasSub needle ns

/-- The ownership-band classification (source lines 206-214): the three
percentage-band substrings tried in priority order, `"Unknown"` when none
matches.  The `elif` chain means later checks run only when earlier ones
returned `False`. -/
def pscOwnership (natures : List Json) : Except String String := do
  if (← anyHasSub "75-to-100-percent" natures) then Except.ok "75% - 100%"
  else if (← anyHasSub "50-to-75-percent" natures) then Except.ok "50% - 75%"
  else if (← anyHasSub "25-to-50-percent" natures) then Except.ok "25% - 50%"
  else Except.ok "Unknown"

/-- The extraction `psc.get("natures_of_control", [])` (source line 207),
combined with the iteration performed by the `any(...)` generators. -/
def pscNatures (psc : Json) : Except String (List Json) := do
  pyElems (← pyGetD psc "natures_of_control" (Json.arr []))

/-- The derived band of one PSC: its control tags fed to the classifier. -/
def pscBand (psc : Json) : Except String String := do
  pscOwnership (← pscNatures psc)

/-- The expression `x.get("name", "").upper()` (source lines 216 and 232),
used to key both sides of the officer-to-PSC match. -/
def upperNameOf (x : Json) : Except String String := do
  pyUpper (← pyGetD x "name" (Json.str ""))

/-- One `beneficial_owners` entry (source lines 219-226). -/
def pscRecord (psc : Json) (ownership : String) (natures : List Json) : Json :=
  Json.obj [
    ("name", objGet psc "name"),
    ("kind", objGet psc "kind"),
    ("nationality", objGet psc "nationality"),
    ("country_of_residence", objGet psc "country_of_residence"),
    ("ownership_percentage", Json.str ownership),
    ("natures_of_control", Json.arr natures)]

/-- The PSC loop (source lines 205-226).  It returns the final `psc_map`
together with the `beneficial_owners` list.  Python's
`psc_map[name] = ownership` overwrites: lookups in the returned association
list find the binding of the LAST list element with that normalized name,
because each recursive step appends its own binding AFTER the bindings
produced by the rest of the list and `mapLookup` takes the first match. -/
def processPscs : List Json → Except String (List (String × String) × List Json)
  | [] => Except.ok ([], [])
  | psc :: rest => do
      let natures ← pscNatures psc
      let ownership ← pscOwnership natures
      let name ← upperNameOf psc
      let (m, owners) ← processPscs rest
      Except.ok (m ++ [(name, ownership)], pscRecord psc ownership natures :: owners)

/-- One `active_directors` entry (source lines 237-244). -/
def officerRecord (m : List (String × String)) (o : Json) (dirName : String) : Json :=
  Json.obj [
    ("name", objGet o "name"),
    ("role", objGet o "officer_role"),
    ("appointed", objGet o "appointed_on"),
    ("nationality", objGet o "nationality"),
    ("country_of_residence", objGet o "country_of_residence"),
    ("ownership_percentage", Json.str (mapLookupD m dirName "0% (Not a PSC)"))]

/-- The officer loop (source lines 229-244): keep exactly the officers whose
`resigned_on` is `None` (absent or null), attach the PSC-map band or the
literal `"0% (Not a PSC)"`. -/
def processOfficers (m : List (String × String)) : List Json → Except String (List Json)
  | [] => Except.ok []
  | o :: rest => do
      let resigned ← pyGet o "resigned_on"
      if isNull resigned then do
        let dirName ← upperNameOf o
        let tail ← processOfficers m rest
        Except.ok (officerRecord m o dirName :: tail)
      else
        processOfficers m rest

/-- Gate for the six profile reads of source lines 248-253: each is
`profile.get(...)`, so together they succeed exactly when `profile` is a
dict, and then the assembled body is returned. -/
def profileGate (profile body : Json) : Except String Json :=
  match profile with
  | Json.obj _ => Except.ok body
  | _ => Except.error "AttributeError: object has no attribute get"

/-- Report construction from the four fetched payloads (source lines
188-264, after the profile short-circuit).  The items-extractions are placed
at the source's extraction lines (190, 194, 198-199); Python would fault on
a non-list `items` value only at the first iteration of it, but every such
value is iterated unconditionally later in the body, so the set of faulting
inputs is unchanged (see the file comment). -/
def buildReport (profile officersData pscsData chargesData : Json) :
    Except String Json := do
  let officers ← fetchedItems officersData
  let pscs ← fetchedItems pscsData
  let chargesCnt := chargesCount chargesData
  let chargeItems ← fetchedItems chargesData
  let active ← activeCharges chargeItems
  let (pscMap, owners) ← processPscs pscs
  let directors ← processOfficers pscMap officers
  profileGate profile (Json.obj [
    ("company_name", objGet profile "company_name"),
    ("company_number", objGet profile "company_number"),
    ("status", objGet profile "company_status"),
    ("type", objGet profile "type"),
    ("incorporation_date", objGet profile "date_of_creation"),
    ("registered_address", objGet profile "registered_office_address"),
    ("officers_count", Json.num officers.length),
    ("active_directors", Json.arr directors),
    ("beneficial_owners", Json.arr owners),
    ("charges_summary", Json.obj [
      ("total_charges", chargesCnt),
      ("outstanding_charges", Json.num active.length)]),
    ("full_profile_source", profile)])

/-- The four endpoints `generate_company_report` may fetch, in source order
(lines 184, 189, 193, 197). -/
inductive Endpoint where
  | profileEp : Endpoint
  | officersEp : Endpoint
  | pscsEp : Endpoint
  | chargesEp : Endpoint

/-- The four upstream responses a single report request can consume, as
returned by `_safe_request`. -/
structure FetchEnv where
  profile : Json
  officers : Json
  pscs : Json
  charges : Json

/-- The report assembler (source lines 171-264) over the fetched data,
together with the trace of endpoints actually fetched.  Line 185's
`isinstance(profile, dict) and "error" in profile` is `hasKey`; on that
branch the profile object is returned unchanged and no further fetch
happens.  Otherwise all three remaining fetches are issued (lines 189-197)
before any processing. -/
def generate_company_report (env : FetchEnv) : Except String Json × List Endpoint :=
  if hasKey env.profile "error" then
    (Except.ok env.profile, [Endpoint.profileEp])
  else
    (buildReport env.profile env.officers env.pscs env.charges,
     [Endpoint.profileEp, Endpoint.officersEp, Endpoint.pscsEp, Endpoint.chargesEp])

/-- An upstream HTTP response after a completed request: status code, parsed
JSON body (meaningful on the 200 path) and raw text. -/
structure HttpResponse where
  status_code : Nat
  body : Json
  text : String

/-- The response normaliser `_handle_response` (source lines 38-55). -/
def handle_response (r : HttpResponse) : Json :=
  if r.status_code = 200 then r.body
  else if r.status_code = 404 then
    Json.obj [("error", Json.str "NOT_FOUND"), ("message", Json.str "Resource not found.")]
  else if r.status_code = 401 then
    Json.obj [("error", Json.str "UNAUTHORISED"), ("message", Json.str "Invalid API Key.")]
  else if r.status_code = 429 then
    Json.obj [("error", Json.str "RATE_LIMIT"), ("message", Json.str "Too many requests.")]
  else
    Json.obj [("error", Json.str "API_ERROR"),
      ("status", Json.num (r.status_code : Int)), ("message", Json.str r.text)]

/-- The possible outcomes of one `_safe_request` call (source lines 57-68):
a completed HTTP response, a missing-credential `ValueError`, or any other
exception. -/
inductive FetchOutcome where
  | response : HttpResponse → FetchOutcome
  | configError : String → FetchOutcome
  | exceptionErr : String → FetchOutcome

/-- The value `_safe_request` returns for each outcome (source lines 57-68). -/
def safe_request (o : FetchOutcome) : Json :=
  match o with
  | FetchOutcome.response r => handle_response r
  | FetchOutcome.configError m =>
      Json.obj [("error", Json.str "CONFIGURATION_ERROR"), ("message", Json.str m)]
  | FetchOutcome.exceptionErr m =>
      Json.obj [("error", Json.str "EXCEPTION"), ("message", Json.str m)]

/-- A fetch "fails" when the request did not come back 200, or raised: every
branch of `_safe_request` other than the 200 body. -/
def fetchFailed (o : FetchOutcome) : Bool :=
  match o with
  | FetchOutcome.response r => r.status_code != 200
  | _ => true

/-- Total mirror of `upperNameOf`, used only to STATE properties; it agrees
with `upperNameOf` whenever the latter succeeds. -/
def normName (x : Json) : String :=
  match objGetD x "name" (Json.str "") with
  | Json.str s => strUpper s
  | _ => ""

/-- Total mirror of the keep-condition of the officer loop (source line
231): `resigned_on` absent or null.  Agrees with the loop's own test
whenever `pyGet` succeeds, i.e. on dict officers. -/
def activeOfficer (o : Json) : Bool :=
  isNull (objGet o "resigned_on")

/-! ## General lemmas about the embedding -/

/-- Bind on a successful `Except` computation. -/
@[simp] theorem ebind_ok {α β : Type} (a : α) (f : α → Except String β) :
    (Except.ok a : Except String α) >>= f = f a := rfl

/-- Bind on a failed `Except` computation. -/
@[simp] theorem ebind_err {α β : Type} (e : String) (f : α → Except String β) :
    (Except.error e : Except String α) >>= f = (Except.error e : Except String β) := rfl

/-- Inversion of a successful bind. -/
theorem ebind_ok_iff {α β : Type} {e : Except String α} {f : α → Except String β} {b : β} :
    (e >>= f) = Except.ok b ↔ ∃ a, e = Except.ok a ∧ f a = Except.ok b := by
  cases e <;> simp

/-- The short-circuiting `any(needle in n for n in natures)` model agrees,
on lists of strings, with a boolean `any` of plain substring tests. -/
theorem anyHasSub_map_str (needle : String) (ns : List String) :
    anyHasSub needle (ns.map Json.str) =
      Except.ok (ns.any fun n => strContains n needle) := by
  induction ns with
  | nil => rfl
  | cons n rest ih =>
      simp only [List.map_cons, anyHasSub, pyInOp, ebind_ok, List.any_cons]
      cases h : strContains n needle <;> simp [h, ih]

/-- A successful `pyGet` agrees with the total lookup `objGet`. -/
theorem pyGet_ok {o : Json} {k : String} {v : Json} (h : pyGet o k = Except.ok v) :
    objGet o k = v := by
  cases o <;> simp_all [pyGet, pyGetD, objGet]

/-- A successful `upperNameOf` agrees with the total mirror `normName`. -/
theorem upperNameOf_ok {o : Json} {u : String} (h : upperNameOf o = Except.ok u) :
    normName o = u := by
  cases o with
  | obj fs =>
      simp only [upperNameOf, pyGetD, ebind_ok] at h
      cases hn : (lookupField fs "name").getD (Json.str "") <;>
        simp_all [pyUpper, normName, objGetD]
  | _ => simp_all [upperNameOf, pyGetD]

/-- Lookup distributes over appended `psc_map` segments: the earlier segment
takes priority. -/
theorem mapLookup_append (a c : List (String × String)) (k : String) :
    mapLookup (a ++ c) k =
      match mapLookup a k with
      | some v => some v
      | none => mapLookup c k := by
  induction a with
  | nil => rfl
  | cons p rest ih =>
      by_cases h : p.1 == k <;> simp [mapLookup, h, ih]

/-! ## Claims -/

/-- C1: for every PSC in the fetched PSC list, `generate_company_report`
derives its ownership band by substring-containment over the
`natures_of_control` tag list in fixed priority order: any tag containing
`"75-to-100-percent"` gives `"75% - 100%"`; otherwise any tag containing
`"50-to-75-percent"` gives `"50% - 75%"`; otherwise any tag containing
`"25-to-50-percent"` gives `"25% - 50%"`; otherwise `"Unknown"` — so a PSC
carrying both a higher- and a lower-band substring gets the higher band.
The last conjunct ties the classifier to the PSC loop: the
`beneficial_owners` entry built for a PSC carries exactly the classifier's
band for its tag list. -/
theorem c1_ownership_band_priority (natures : List String) :
    ((∃ n ∈ natures, strContains n "75-to-100-percent" = true) →
        pscOwnership (natures.map Json.str) = Except.ok "75% - 100%") ∧
    ((∀ n ∈ natures, strContains n "75-to-100-percent" = false) →
     (∃ n ∈ natures, strContains n "50-to-75-percent" = true) →
        pscOwnership (natures.map Json.str) = Except.ok "50% - 75%") ∧
    ((∀ n ∈ natures, strContains n "75-to-100-percent" = false) →
     (∀ n ∈ natures, strContains n "50-to-75-percent" = false) →
     (∃ n ∈ natures, strContains n "25-to-50-percent" = true) →
        pscOwnership (natures.map Json.str) = Except.ok "25% - 50%") ∧
    ((∀ n ∈ natures, strContains n "75-to-100-percent" = false) →
     (∀ n ∈ natures, strContains n "50-to-75-percent" = false) →
     (∀ n ∈ natures, strContains n "25-to-50-percent" = false) →
        pscOwnership (natures.map Json.str) = Except.ok "Unknown") ∧
    (∀ (psc : Json) (rest : List Json) (m : List (String × String))
        (entry : Json) (tail : List Json),
      processPscs (psc :: rest) = Except.ok (m, entry :: tail) →
      pscNatures psc = Except.ok (natures.map Json.str) →
      ∃ b, pscOwnership (natures.map Json.str) = Except.ok b ∧
        objGet entry "ownership_percentage" = Json.str b) := by
  refine ⟨?_, ?_, ?_, ?_, ?_⟩
  · rintro ⟨n, hn, hc⟩
    have h75 : natures.any (fun n => strContains n "75-to-100-percent") = true :=
      List.any_eq_true.mpr ⟨n, hn, hc⟩
    simp [pscOwnership, anyHasSub_map_str, h75]
  · intro hall ⟨n, hn, hc⟩
    have h75 : natures.any (fun n => strContains n "75-to-100-percent") = false :=
      List.any_eq_false.mpr (fun x hx => by simp [hall x hx])
    have h50 : natures.any (fun n => strContains n "50-to-75-percent") = true :=
      List.any_eq_true.mpr ⟨n, hn, hc⟩
    simp [pscOwnership, anyHasSub_map_str, h75, h50]
  · intro hall75 hall50 ⟨n, hn, hc⟩
    have h75 : natures.any (fun n => strContains n "75-to-100-percent") = false :=
      List.any_eq_false.mpr (fun x hx => by simp [hall75 x hx])
    have h50 : natures.any (fun n => strContains n "50-to-75-percent") = false :=
      List.any_eq_false.mpr (fun x hx => by simp [hall50 x hx])
    have h25 : natures.any (fun n => strContains n "25-to-50-percent") = true :=
      List.any_eq_true.mpr ⟨n, hn, hc⟩
    simp [pscOwnership, anyHasSub_map_str, h75, h50, h25]
  · intro hall75 hall50 hall25
    have h75 : natures.any (fun n => strContains n "75-to-100-percent") = false :=
      List.any_eq_false.mpr (fun x hx => by simp [hall75 x hx])
    have h50 : natures.any (fun n => strContains n "50-to-75-percent") = false :=
      List.any_eq_false.mpr (fun x hx => by simp [hall50 x hx])
    have h25 : natures.any (fun n => strContains n "25-to-50-percent") = false :=
      List.any_eq_false.mpr (fun x hx => by simp [hall25 x hx])
    simp [pscOwnership, anyHasSub_map_str, h75, h50, h25]
  · intro psc rest m entry tail h hN
    simp only [processPscs] at h
    rcases ebind_ok_iff.mp h with ⟨nts, hnts, h2⟩
    rw [hN] at hnts
    injection hnts with hnts
    subst hnts
    rcases ebind_ok_iff.mp h2 with ⟨own, hown, h3⟩
    rcases ebind_ok_iff.mp h3 with ⟨name, hname, h4⟩
    rcases ebind_ok_iff.mp h4 with ⟨pr, hpr, h5⟩
    cases pr with
    | mk mRest owners =>
        simp only [Except.ok.injEq, Prod.mk.injEq, List.cons.injEq] at h5
        refine ⟨own, hown, ?_⟩
        rw [← h5.2.1]
        rfl

/-- Witness for C1 at a PSC carrying both a higher- and a lower-band tag:
the higher band wins. -/
theorem c1_ownership_band_priority_witness :
    pscOwnership (["ownership-of-shares-75-to-100-percent",
      "ownership-of-shares-25-to-50-percent"].map Json.str) =
      Except.ok "75% - 100%" :=
  (c1_ownership_band_priority _).1
    ⟨"ownership-of-shares-75-to-100-percent", by simp, by rfl⟩

/-- Every failed `_safe_request` outcome yields a dict containing the key
`"error"` (source lines 44-55 and 65-68). -/
theorem safe_request_error_key (o : FetchOutcome) (h : fetchFailed o = true) :
    hasKey (safe_request o) "error" = true := by
  cases o with
  | response r =>
      have h200 : ¬ r.status_code = 200 := by
        simpa [fetchFailed] using h
      simp only [safe_request, handle_response, if_neg h200]
      split_ifs <;> simp [hasKey, lookupField]
  | configError m => simp [safe_request, hasKey, lookupField]
  | exceptionErr m => simp [safe_request, hasKey, lookupField]

/-- C2: for every company number and credential, if the profile fetch fails
then `generate_company_report` returns exactly the profile fetch's error
object and performs none of the officers, PSC, or charges fetches (its fetch
trace is the profile endpoint alone). -/
theorem c2_profile_failure_short_circuit (po : FetchOutcome) (oJ pJ cJ : Json)
    (h : fetchFailed po = true) :
    generate_company_report ⟨safe_request po, oJ, pJ, cJ⟩ =
      (Except.ok (safe_request po), [Endpoint.profileEp]) := by
  simp [generate_company_report, safe_request_error_key po h]

/-- Witness for C2 at a concrete 404 profile response. -/
theorem c2_profile_failure_short_circuit_witness :
    generate_company_report
        ⟨safe_request (FetchOutcome.response ⟨404, Json.null, "irrelevant"⟩),
          Json.null, Json.null, Json.null⟩ =
      (Except.ok (safe_request (FetchOutcome.response ⟨404, Json.null, "irrelevant"⟩)),
        [Endpoint.profileEp]) :=
  c2_profile_failure_short_circuit (FetchOutcome.response ⟨404, Json.null, "irrelevant"⟩)
    Json.null Json.null Json.null (by rfl)

/-- Every failed `_safe_request` outcome yields a dict with neither an
`"items"` nor a `"total_count"` key, so the report's extractions degrade to
an empty item list and a zero total (source lines 44-55, 65-68, 190-199). -/
theorem safe_request_degrades (o : FetchOutcome) (h : fetchFailed o = true) :
    fetchedItems (safe_request o) = Except.ok [] ∧
    chargesCount (safe_request o) = Json.num 0 := by
  cases o with
  | response r =>
      have h200 : ¬ r.status_code = 200 := by
        simpa [fetchFailed] using h
      simp only [safe_request, handle_response, if_neg h200]
      split_ifs <;> simp [fetchedItems, chargesCount, lookupField, pyElems]
  | configError m => simp [safe_request, fetchedItems, chargesCount, lookupField, pyElems]
  | exceptionErr m => simp [safe_request, fetchedItems, chargesCount, lookupField, pyElems]

/-- C3: once the profile fetch has succeeded, a failure of the officers
fetch, the PSC fetch, or the charges fetch never makes
`generate_company_report` fail: each failing sub-resource behaves exactly
like an empty payload (empty officers list, empty PSC list — hence
`beneficial_owners = []` — and zero charge counts), and with all three
failing a composite report is still returned. -/
theorem c3_subresource_failures_degrade (eo ep ec : FetchOutcome)
    (ho : fetchFailed eo = true) (hp : fetchFailed ep = true)
    (hc : fetchFailed ec = true) :
    (∀ p ps ch, generate_company_report ⟨p, safe_request eo, ps, ch⟩ =
        generate_company_report ⟨p, Json.obj [], ps, ch⟩) ∧
    (∀ p os ch, generate_company_report ⟨p, os, safe_request ep, ch⟩ =
        generate_company_report ⟨p, os, Json.obj [], ch⟩) ∧
    (∀ p os ps, generate_company_report ⟨p, os, ps, safe_request ec⟩ =
        generate_company_report ⟨p, os, ps, Json.obj []⟩) ∧
    (∀ fs, hasKey (Json.obj fs) "error" = false →
        generate_company_report
            ⟨Json.obj fs, safe_request eo, safe_request ep, safe_request ec⟩ =
          (Except.ok (Json.obj [
            ("company_name", objGet (Json.obj fs) "company_name"),
            ("company_number", objGet (Json.obj fs) "company_number"),
            ("status", objGet (Json.obj fs) "company_status"),
            ("type", objGet (Json.obj fs) "type"),
            ("incorporation_date", objGet (Json.obj fs) "date_of_creation"),
            ("registered_address", objGet (Json.obj fs) "registered_office_address"),
            ("officers_count", Json.num 0),
            ("active_directors", Json.arr []),
            ("beneficial_owners", Json.arr []),
            ("charges_summary", Json.obj [
              ("total_charges", Json.num 0),
              ("outstanding_charges", Json.num 0)]),
            ("full_profile_source", Json.obj fs)]),
          [Endpoint.profileEp, Endpoint.officersEp, Endpoint.pscsEp,
            Endpoint.chargesEp])) := by
  obtain ⟨hoi, hoc⟩ := safe_request_degrades eo ho
  obtain ⟨hpi, hpc⟩ := safe_request_degrades ep hp
  obtain ⟨hci, hcc⟩ := safe_request_degrades ec hc
  have hempty : fetchedItems (Json.obj []) = Except.ok [] := rfl
  have hemptyC : chargesCount (Json.obj []) = Json.num 0 := rfl
  refine ⟨?_, ?_, ?_, ?_⟩
  · intro p ps ch
    simp only [generate_company_report]
    split_ifs
    · rfl
    · simp only [buildReport, hoi, hempty]
  · intro p os ch
    simp only [generate_company_report]
    split_ifs
    · rfl
    · simp only [buildReport, hpi, hempty]
  · intro p os ps
    simp only [generate_company_report]
    split_ifs
    · rfl
    · simp only [buildReport, hci, hcc, hempty, hemptyC]
  · intro fs hno
    simp only [generate_company_report, hno, Bool.false_eq_true, if_false,
      buildReport, hoi, hpi, hci, hcc]
    rfl

/-- Witness for C3: a rate-limited officers fetch, a raising PSC fetch and a
missing-credential charges fetch each degrade to the empty payload, and with
all three failing a composite report is still produced. -/
theorem c3_subresource_failures_degrade_witness :
    (generate_company_report
        ⟨Json.obj [("company_name", Json.str "ACME LTD")],
          safe_request (FetchOutcome.response ⟨429, Json.null, "t"⟩),
          Json.null, Json.null⟩ =
      generate_company_report
        ⟨Json.obj [("company_name", Json.str "ACME LTD")], Json.obj [],
          Json.null, Json.null⟩) ∧
    (generate_company_report
        ⟨Json.obj [("company_name", Json.str "ACME LTD")], Json.null,
          safe_request (FetchOutcome.exceptionErr "boom"), Json.null⟩ =
      generate_company_report
        ⟨Json.obj [("company_name", Json.str "ACME LTD")], Json.null,
          Json.obj [], Json.null⟩) ∧
    (generate_company_report
        ⟨Json.obj [("company_name", Json.str "ACME LTD")], Json.null,
          Json.null, safe_request (FetchOutcome.configError "no key")⟩ =
      generate_company_report
        ⟨Json.obj [("company_name", Json.str "ACME LTD")], Json.null,
          Json.null, Json.obj []⟩) ∧
    (generate_company_report
        ⟨Json.obj [("company_name", Json.str "ACME LTD")],
          safe_request (FetchOutcome.response ⟨429, Json.null, "t"⟩),
          safe_request (FetchOutcome.exceptionErr "boom"),
          safe_request (FetchOutcome.configError "no key")⟩ =
      (Except.ok (Json.obj [
        ("company_name", objGet (Json.obj [("company_name", Json.str "ACME LTD")]) "company_name"),
        ("company_number", objGet (Json.obj [("company_name", Json.str "ACME LTD")]) "company_number"),
        ("status", objGet (Json.obj [("company_name", Json.str "ACME LTD")]) "company_status"),
        ("type", objGet (Json.obj [("company_name", Json.str "ACME LTD")]) "type"),
        ("incorporation_date", objGet (Json.obj [("company_name", Json.str "ACME LTD")]) "date_of_creation"),
        ("registered_address", objGet (Json.obj [("company_name", Json.str "ACME LTD")]) "registered_office_address"),
        ("officers_count", Json.num 0),
        ("active_directors", Json.arr []),
        ("beneficial_owners", Json.arr []),
        ("charges_summary", Json.obj [
          ("total_charges", Json.num 0),
          ("outstanding_charges", Json.num 0)]),
        ("full_profile_source", Json.obj [("company_name", Json.str "ACME LTD")])]),
      [Endpoint.profileEp, Endpoint.officersEp, Endpoint.pscsEp,
        Endpoint.chargesEp])) := by
  have h := c3_subresource_failures_degrade
    (FetchOutcome.response ⟨429, Json.null, "t"⟩)
    (FetchOutcome.exceptionErr "boom") (FetchOutcome.configError "no key")
    (by rfl) (by rfl) (by rfl)
  exact ⟨h.1 _ _ _, h.2.1 _ _ _, h.2.2.1 _ _ _,
    h.2.2.2 [("company_name", Json.str "ACME LTD")] (by rfl)⟩

/-- A successful officer loop returns exactly the entry-builder mapped over
the officers without a resignation date. -/
theorem processOfficers_eq (m : List (String × String)) (os ds : List Json)
    (h : processOfficers m os = Except.ok ds) :
    ds = (os.filter activeOfficer).map (fun o => officerRecord m o (normName o)) := by
  induction os generalizing ds with
  | nil =>
      simp only [processOfficers, Except.ok.injEq] at h
      simp [← h]
  | cons o rest ih =>
      simp only [processOfficers] at h
      rcases ebind_ok_iff.mp h with ⟨v, hv, h2⟩
      have hval : objGet o "resigned_on" = v := pyGet_ok hv
      cases hnull : isNull v with
      | false =>
          rw [hnull, if_neg (by simp)] at h2
          have hfilter : activeOfficer o = false := by
            simp [activeOfficer, hval, hnull]
          simp [List.filter_cons, hfilter, ih ds h2]
      | true =>
          rw [hnull, if_pos rfl] at h2
          rcases ebind_ok_iff.mp h2 with ⟨u, hu, h3⟩
          rcases ebind_ok_iff.mp h3 with ⟨tail, htail, h4⟩
          simp only [Except.ok.injEq] at h4
          have hfilter : activeOfficer o = true := by
            simp [activeOfficer, hval, hnull]
          simp [← h4, List.filter_cons, hfilter, upperNameOf_ok hu, ih tail htail]

/-- C4: for every fetched officers list, `active_directors` holds exactly
the officers whose `resigned_on` field is null or absent — the directors
list equals the map of the entry-builder over the officers filtered by that
condition, so every officer with a non-null `resigned_on` is excluded. -/
theorem c4_active_directors_filter (m : List (String × String)) (os ds : List Json)
    (h : processOfficers m os = Except.ok ds) :
    ds = (os.filter activeOfficer).map (fun o => officerRecord m o (normName o)) :=
  processOfficers_eq m os ds h

/-- Witness for C4: one unresigned and one resigned officer; only the
former appears, carried through the entry builder. -/
theorem c4_active_directors_filter_witness :
    ([officerRecord [] (Json.obj [("name", Json.str "Jane Doe"),
        ("officer_role", Json.str "director")]) "JANE DOE"] : List Json) =
      (([Json.obj [("name", Json.str "Jane Doe"),
          ("officer_role", Json.str "director")],
        Json.obj [("name", Json.str "Bob Byrd"),
          ("resigned_on", Json.str "2020-01-01")]].filter activeOfficer).map
        (fun o => officerRecord [] o (normName o))) :=
  c4_active_directors_filter []
    [Json.obj [("name", Json.str "Jane Doe"), ("officer_role", Json.str "director")],
     Json.obj [("name", Json.str "Bob Byrd"), ("resigned_on", Json.str "2020-01-01")]]
    [officerRecord [] (Json.obj [("name", Json.str "Jane Doe"),
        ("officer_role", Json.str "director")]) "JANE DOE"]
    (by rfl)

/-- C5: an active (unresigned) officer whose upper-cased name is not a key
of the PSC map gets the literal `"0% (Not a PSC)"` as its
`ownership_percentage`; if the upper-cased name is a key, the entry carries
that PSC's stored band. -/
theorem c5_director_ownership_lookup (m : List (String × String))
    (fs : List (String × Json)) (s : String)
    (hres : isNull ((lookupField fs "resigned_on").getD Json.null) = true)
    (hname : (lookupField fs "name").getD (Json.str "") = Json.str s) :
    processOfficers m [Json.obj fs] =
      Except.ok [officerRecord m (Json.obj fs) (strUpper s)] ∧
    (mapLookup m (strUpper s) = none →
      objGet (officerRecord m (Json.obj fs) (strUpper s)) "ownership_percentage" =
        Json.str "0% (Not a PSC)") ∧
    (∀ b, mapLookup m (strUpper s) = some b →
      objGet (officerRecord m (Json.obj fs) (strUpper s)) "ownership_percentage" =
        Json.str b) := by
  refine ⟨?_, ?_, ?_⟩
  · simp [processOfficers, pyGet, pyGetD, hres, upperNameOf, hname, pyUpper]
  · intro hnone
    simp [officerRecord, objGet, lookupField, mapLookupD, hnone]
  · intro b hb
    simp [officerRecord, objGet, lookupField, mapLookupD, hb]

/-- Witness for C5: with the map binding only JANE DOE, the matching officer
gets the stored band and a non-matching officer gets the literal default. -/
theorem c5_director_ownership_lookup_witness :
    (processOfficers [("JANE DOE", "75% - 100%")]
        [Json.obj [("name", Json.str "Ana Bell")]] =
      Except.ok [officerRecord [("JANE DOE", "75% - 100%")]
        (Json.obj [("name", Json.str "Ana Bell")]) "ANA BELL"]) ∧
    (objGet (officerRecord [("JANE DOE", "75% - 100%")]
        (Json.obj [("name", Json.str "Ana Bell")]) "ANA BELL")
        "ownership_percentage" = Json.str "0% (Not a PSC)") ∧
    (objGet (officerRecord [("JANE DOE", "75% - 100%")]
        (Json.obj [("name", Json.str "Jane Doe")]) "JANE DOE")
        "ownership_percentage" = Json.str "75% - 100%") := by
  have h1 := c5_director_ownership_lookup [("JANE DOE", "75% - 100%")]
    [("name", Json.str "Ana Bell")] "Ana Bell" (by rfl) (by rfl)
  have h2 := c5_director_ownership_lookup [("JANE DOE", "75% - 100%")]
    [("name", Json.str "Jane Doe")] "Jane Doe" (by rfl) (by rfl)
  exact ⟨h1.1, h1.2.1 (by rfl), h2.2.2 "75% - 100%" (by rfl)⟩

/-- The charges comprehension keeps exactly the dict items whose `status`
equals the string `"outstanding"`. -/
theorem activeCharges_filter (items : List Json)
    (hobj : ∀ c ∈ items, ∃ cf, c = Json.obj cf) :
    activeCharges items =
      Except.ok (items.filter fun c => pyEqStr (objGet c "status") "outstanding") := by
  induction items with
  | nil => rfl
  | cons c rest ih =>
      obtain ⟨cf, rfl⟩ := hobj c (by simp)
      have hr := ih (fun x hx => hobj x (by simp [hx]))
      simp only [activeCharges, pyGet, pyGetD, ebind_ok, hr, List.filter_cons]
      cases h : pyEqStr ((lookupField cf "status").getD Json.null) "outstanding" <;>
        simp_all [objGet]

/-- C6: for every fetched charges payload, `total_charges` is the payload's
`total_count` field (0 when absent) and `outstanding_charges` counts exactly
the fetched page items whose `status` equals `"outstanding"` verbatim
(case-sensitively); the total is read from `total_count` alone, never from
the page contents. -/
theorem c6_charges_summary (fs : List (String × Json)) (items : List Json)
    (hitems : lookupField fs "items" = some (Json.arr items))
    (hobj : ∀ c ∈ items, ∃ cf, c = Json.obj cf) :
    fetchedItems (Json.obj fs) = Except.ok items ∧
    activeCharges items =
      Except.ok (items.filter fun c => pyEqStr (objGet c "status") "outstanding") ∧
    (∀ v, lookupField fs "total_count" = some v → chargesCount (Json.obj fs) = v) ∧
    (lookupField fs "total_count" = none → chargesCount (Json.obj fs) = Json.num 0) := by
  refine ⟨?_, activeCharges_filter items hobj, ?_, ?_⟩
  · simp [fetchedItems, hitems, pyElems]
  · intro v hv
    simp [chargesCount, hv]
  · intro hnone
    simp [chargesCount, hnone]

/-- Witness for C6: a page with statuses `"outstanding"`, `"Outstanding"`,
`"satisfied"` and one absent status, under a `total_count` of 7; exactly the
first item survives the filter, and the total is 7 regardless of the page
holding four items. -/
theorem c6_charges_summary_witness :
    (fetchedItems (Json.obj [("total_count", Json.num 7),
        ("items", Json.arr [Json.obj [("status", Json.str "outstanding")],
          Json.obj [("status", Json.str "Outstanding")],
          Json.obj [("status", Json.str "satisfied")], Json.obj []])]) =
      Except.ok [Json.obj [("status", Json.str "outstanding")],
        Json.obj [("status", Json.str "Outstanding")],
        Json.obj [("status", Json.str "satisfied")], Json.obj []]) ∧
    (activeCharges [Json.obj [("status", Json.str "outstanding")],
        Json.obj [("status", Json.str "Outstanding")],
        Json.obj [("status", Json.str "satisfied")], Json.obj []] =
      Except.ok ([Json.obj [("status", Json.str "outstanding")],
        Json.obj [("status", Json.str "Outstanding")],
        Json.obj [("status", Json.str "satisfied")],
        Json.obj []].filter fun c => pyEqStr (objGet c "status") "outstanding")) ∧
    (([Json.obj [("status", Json.str "outstanding")],
        Json.obj [("status", Json.str "Outstanding")],
        Json.obj [("status", Json.str "satisfied")],
        Json.obj []].filter fun c => pyEqStr (objGet c "status") "outstanding") =
      [Json.obj [("status", Json.str "outstanding")]]) ∧
    (chargesCount (Json.obj [("total_count", Json.num 7),
        ("items", Json.arr [Json.obj [("status", Json.str "outstanding")],
          Json.obj [("status", Json.str "Outstanding")],
          Json.obj [("status", Json.str "satisfied")], Json.obj []])]) =
      Json.num 7) := by
  have h := c6_charges_summary
    [("total_count", Json.num 7),
      ("items", Json.arr [Json.obj [("status", Json.str "outstanding")],
        Json.obj [("status", Json.str "Outstanding")],
        Json.obj [("status", Json.str "satisfied")], Json.obj []])]
    [Json.obj [("status", Json.str "outstanding")],
      Json.obj [("status", Json.str "Outstanding")],
      Json.obj [("status", Json.str "satisfied")], Json.obj []]
    (by rfl) (by intro c hc; fin_cases hc <;> exact ⟨_, rfl⟩)
  exact ⟨h.1, h.2.1, by rfl, h.2.2.1 (Json.num 7) (by rfl)⟩

/-- C7: officer-to-PSC matching is keyed by exact equality of upper-cased
names, and when several PSCs share one upper-cased name the band stored in
the `psc_map` under that key is the band of the LAST such PSC in list
order: any binding for the key contributed by the later PSCs shadows the
head PSC's own binding, and the head PSC's band is stored only when no
later PSC binds the key. -/
theorem c7_psc_map_last_write_wins (psc : Json) (rest : List Json) (u : String)
    (m mr : List (String × String)) (os osr : List Json)
    (h : processPscs (psc :: rest) = Except.ok (m, os))
    (hr : processPscs rest = Except.ok (mr, osr))
    (hu : upperNameOf psc = Except.ok u) :
    (∀ b, mapLookup mr u = some b → mapLookup m u = some b) ∧
    (mapLookup mr u = none →
      ∀ b, pscBand psc = Except.ok b → mapLookup m u = some b) := by
  simp only [processPscs] at h
  rcases ebind_ok_iff.mp h with ⟨nts, hnts, h2⟩
  rcases ebind_ok_iff.mp h2 with ⟨own, hown, h3⟩
  rcases ebind_ok_iff.mp h3 with ⟨nm, hnm, h4⟩
  rcases ebind_ok_iff.mp h4 with ⟨pr, hpr, h5⟩
  cases pr with
  | mk m2 os2 =>
      rw [hu] at hnm
      injection hnm with hnm
      rw [hr] at hpr
      injection hpr with hpr
      injection hpr with hm2 hos2
      simp only [Except.ok.injEq, Prod.mk.injEq] at h5
      have hm : m = mr ++ [(u, own)] := by rw [← h5.1, hm2, hnm]
      constructor
      · intro b hb
        rw [hm, mapLookup_append, hb]
      · intro hnone b hband
        have hbo : pscBand psc = Except.ok own := by
          simp [pscBand, pscNatures] at hnts ⊢
          rcases ebind_ok_iff.mp hnts with ⟨nj, hnj, hpe⟩
          simp [hnj, hpe, hown]
        rw [hbo] at hband
        injection hband with hband
        rw [hm, mapLookup_append, hnone, hband]
        simp [mapLookup]

/-- Witness for C7: PSCs `"Jane Doe"` (25-50 band) then `"JANE doe"` (75-100
band) normalise to the same key `"JANE DOE"`; the stored band is the second
(last) PSC's. -/
theorem c7_psc_map_last_write_wins_witness :
    mapLookup [("JANE DOE", "75% - 100%"), ("JANE DOE", "25% - 50%")]
      "JANE DOE" = some "75% - 100%" :=
  (c7_psc_map_last_write_wins
    (Json.obj [("name", Json.str "Jane Doe"),
      ("natures_of_control",
        Json.arr [Json.str "ownership-of-shares-25-to-50-percent"])])
    [Json.obj [("name", Json.str "JANE doe"),
      ("natures_of_control",
        Json.arr [Json.str "ownership-of-shares-75-to-100-percent"])]]
    "JANE DOE"
    [("JANE DOE", "75% - 100%"), ("JANE DOE", "25% - 50%")]
    [("JANE DOE", "75% - 100%")]
    [pscRecord (Json.obj [("name", Json.str "Jane Doe"),
        ("natures_of_control",
          Json.arr [Json.str "ownership-of-shares-25-to-50-percent"])])
      "25% - 50%" [Json.str "ownership-of-shares-25-to-50-percent"],
     pscRecord (Json.obj [("name", Json.str "JANE doe"),
        ("natures_of_control",
          Json.arr [Json.str "ownership-of-shares-75-to-100-percent"])])
      "75% - 100%" [Json.str "ownership-of-shares-75-to-100-percent"]]
    [pscRecord (Json.obj [("name", Json.str "JANE doe"),
        ("natures_of_control",
          Json.arr [Json.str "ownership-of-shares-75-to-100-percent"])])
      "75% - 100%" [Json.str "ownership-of-shares-75-to-100-percent"]]
    (by rfl) (by rfl) (by rfl)).1 "75% - 100%" (by rfl)

/-- C8: `generate_company_report` is deterministic in the fetched data: two
calls receiving identical upstream responses for profile, officers, PSCs and
charges produce identical report structures — the assembler introduces no
value (timestamp or otherwise) beyond what the four payloads supply. -/
theorem c8_report_deterministic (e1 e2 : FetchEnv)
    (hp : e1.profile = e2.profile) (ho : e1.officers = e2.officers)
    (hpsc : e1.pscs = e2.pscs) (hch : e1.charges = e2.charges) :
    generate_company_report e1 = generate_company_report e2 := by
  cases e1
  cases e2
  cases hp
  cases ho
  cases hpsc
  cases hch
  rfl

/-- Witness for C8 at a concrete environment. -/
theorem c8_report_deterministic_witness :
    generate_company_report
        ⟨Json.obj [("company_name", Json.str "ACME LTD")], Json.obj [],
          Json.obj [], Json.obj []⟩ =
      generate_company_report
        ⟨Json.obj [("company_name", Json.str "ACME LTD")], Json.obj [],
          Json.obj [], Json.obj []⟩ :=
  c8_report_deterministic
    ⟨Json.obj [("company_name", Json.str "ACME LTD")], Json.obj [],
      Json.obj [], Json.obj []⟩
    ⟨Json.obj [("company_name", Json.str "ACME LTD")], Json.obj [],
      Json.obj [], Json.obj []⟩
    rfl rfl rfl rfl

/-- C9: profile failure is detected by duck typing, not transport outcome:
whenever the profile value is a JSON object containing a key `"error"` —
including the parsed body of a successful 200 response that merely carries
such a field — `generate_company_report` returns that object as the whole
result and fetches nothing further. -/
theorem c9_error_detection_duck_typed :
    (∀ env : FetchEnv, hasKey env.profile "error" = true →
        generate_company_report env =
          (Except.ok env.profile, [Endpoint.profileEp])) ∧
    (∀ (r : HttpResponse) (oJ pJ cJ : Json), r.status_code = 200 →
        hasKey r.body "error" = true →
        generate_company_report
            ⟨safe_request (FetchOutcome.response r), oJ, pJ, cJ⟩ =
          (Except.ok r.body, [Endpoint.profileEp])) := by
  constructor
  · intro env h
    simp [generate_company_report, h]
  · intro r oJ pJ cJ h200 herr
    have hbody : safe_request (FetchOutcome.response r) = r.body := by
      simp [safe_request, handle_response, h200]
    simp [generate_company_report, hbody, herr]

/-- Witness for C9: a 200 response whose body happens to contain an
`"error"` field is returned whole, with no further fetches. -/
theorem c9_error_detection_duck_typed_witness :
    generate_company_report
        ⟨safe_request (FetchOutcome.response
          ⟨200, Json.obj [("error", Json.str "weird-but-2xx"),
            ("company_name", Json.str "ACME LTD")], "body"⟩),
          Json.null, Json.null, Json.null⟩ =
      (Except.ok (Json.obj [("error", Json.str "weird-but-2xx"),
        ("company_name", Json.str "ACME LTD")]), [Endpoint.profileEp]) :=
  c9_error_detection_duck_typed.2
    ⟨200, Json.obj [("error", Json.str "weird-but-2xx"),
      ("company_name", Json.str "ACME LTD")], "body"⟩
    Json.null Json.null Json.null rfl (by rfl)

/-- A successful profile gate means the profile was a dict and the body is
returned unchanged. -/
theorem profileGate_ok {p b r : Json} (h : profileGate p b = Except.ok r) :
    r = b := by
  cases p <;> simp [profileGate] at h
  simp [h]

/-- C10: whenever a report is assembled, its `officers_count` equals the
number of officer items in the fetched officers page — resigned officers
included — so `officers_count` is always at least the length of
`active_directors`, and strictly exceeds it whenever some fetched officer
has a non-null `resigned_on`. -/
theorem c10_officers_count_vs_directors (env : FetchEnv) (rep : Json)
    (hp : hasKey env.profile "error" = false)
    (h : (generate_company_report env).1 = Except.ok rep) :
    ∃ (officers ds : List Json),
      fetchedItems env.officers = Except.ok officers ∧
      objGet rep "officers_count" = Json.num officers.length ∧
      objGet rep "active_directors" = Json.arr ds ∧
      ds.length ≤ officers.length ∧
      ((∃ o ∈ officers, isNull (objGet o "resigned_on") = false) →
        ds.length < officers.length) := by
  simp only [generate_company_report, hp, Bool.false_eq_true, if_false] at h
  have h1 : buildReport env.profile env.officers env.pscs env.charges =
      Except.ok rep := h
  simp only [buildReport] at h1
  rcases ebind_ok_iff.mp h1 with ⟨officers, hoff, h2⟩
  rcases ebind_ok_iff.mp h2 with ⟨pscs, hpscs, h3⟩
  rcases ebind_ok_iff.mp h3 with ⟨chargeItems, hci, h4⟩
  rcases ebind_ok_iff.mp h4 with ⟨active, hac, h5⟩
  rcases ebind_ok_iff.mp h5 with ⟨pr, hpr, h6⟩
  rcases ebind_ok_iff.mp h6 with ⟨directors, hdir, h7⟩
  have hds := processOfficers_eq pr.1 officers directors hdir
  have hrep := profileGate_ok h7
  refine ⟨officers, directors, hoff, ?_, ?_, ?_, ?_⟩
  · rw [hrep]
    rfl
  · rw [hrep]
    rfl
  · rw [hds]
    simp only [List.length_map]
    exact List.length_filter_le _ _
  · rintro ⟨o, ho, hres⟩
    rw [hds]
    simp only [List.length_map]
    exact List.length_filter_lt_length_iff_exists.mpr
      ⟨o, ho, by simp [activeOfficer, hres]⟩

/-- Witness for C10: two fetched officers, one resigned; `officers_count` is
2 while `active_directors` has one entry. -/
theorem c10_officers_count_vs_directors_witness :
    ∃ (officers ds : List Json),
      fetchedItems (FetchEnv.mk (Json.obj [("company_name", Json.str "ACME LTD")])
          (Json.obj [("items", Json.arr [Json.obj [("name", Json.str "Jane Doe")],
            Json.obj [("name", Json.str "Bob Byrd"),
              ("resigned_on", Json.str "2020-01-01")]])])
          (Json.obj []) (Json.obj [])).officers = Except.ok officers ∧
      objGet (Json.obj [("company_name", Json.str "ACME LTD"),
          ("company_number", Json.null), ("status", Json.null),
          ("type", Json.null), ("incorporation_date", Json.null),
          ("registered_address", Json.null), ("officers_count", Json.num 2),
          ("active_directors", Json.arr [Json.obj [("name", Json.str "Jane Doe"),
            ("role", Json.null), ("appointed", Json.null),
            ("nationality", Json.null), ("country_of_residence", Json.null),
            ("ownership_percentage", Json.str "0% (Not a PSC)")]]),
          ("beneficial_owners", Json.arr []),
          ("charges_summary", Json.obj [("total_charges", Json.num 0),
            ("outstanding_charges", Json.num 0)]),
          ("full_profile_source",
            Json.obj [("company_name", Json.str "ACME LTD")])])
        "officers_count" = Json.num officers.length ∧
      objGet (Json.obj [("company_name", Json.str "ACME LTD"),
          ("company_number", Json.null), ("status", Json.null),
          ("type", Json.null), ("incorporation_date", Json.null),
          ("registered_address", Json.null), ("officers_count", Json.num 2),
          ("active_directors", Json.arr [Json.obj [("name", Json.str "Jane Doe"),
            ("role", Json.null), ("appointed", Json.null),
            ("nationality", Json.null), ("country_of_residence", Json.null),
            ("ownership_percentage", Json.str "0% (Not a PSC)")]]),
          ("beneficial_owners", Json.arr []),
          ("charges_summary", Json.obj [("total_charges", Json.num 0),
            ("outstanding_charges", Json.num 0)]),
          ("full_profile_source",
            Json.obj [("company_name", Json.str "ACME LTD")])])
        "active_directors" = Json.arr ds ∧
      ds.length ≤ officers.length ∧
      ((∃ o ∈ officers, isNull (objGet o "resigned_on") = false) →
        ds.length < officers.length) :=
  c10_officers_count_vs_directors
    (FetchEnv.mk (Json.obj [("company_name", Json.str "ACME LTD")])
      (Json.obj [("items", Json.arr [Json.obj [("name", Json.str "Jane Doe")],
        Json.obj [("name", Json.str "Bob Byrd"),
          ("resigned_on", Json.str "2020-01-01")]])])
      (Json.obj []) (Json.obj []))
    (Json.obj [("company_name", Json.str "ACME LTD"),
      ("company_number", Json.null), ("status", Json.null),
      ("type", Json.null), ("incorporation_date", Json.null),
      ("registered_address", Json.null), ("officers_count", Json.num 2),
      ("active_directors", Json.arr [Json.obj [("name", Json.str "Jane Doe"),
        ("role", Json.null), ("appointed", Json.null),
        ("nationality", Json.null), ("country_of_residence", Json.null),
        ("ownership_percentage", Json.str "0% (Not a PSC)")]]),
      ("beneficial_owners", Json.arr []),
      ("charges_summary", Json.obj [("total_charges", Json.num 0),
        ("outstanding_charges", Json.num 0)]),
      ("full_profile_source", Json.obj [("company_name", Json.str "ACME LTD")])])
    (by rfl) (by rfl)
